import Mathlib

/-!
Shallow embedding of the ClaimIT claim-lifecycle routes.

The definitions below translate the Express route handlers in
`routes/claims.js` (POST /claims, PUT /claims/:id/status), the item
deletion handler in the items router, and the admin item routes
(PUT /items/:id/status, DELETE /items/:id) into pure Lean functions over
an explicit database state.  The Supabase data store is modelled as lists
of records; a `.single()` query is modelled by `single?`, which returns a
row exactly when the filtered result has exactly one row (PostgREST
returns error code PGRST116 for both zero and multiple rows, and the
handlers treat PGRST116 as "not found").
-/

namespace ClaimIT

/-- User roles, from the users table / auth middleware. -/
inductive Role where
  | student | staff | teacher | admin
deriving DecidableEq

/-- Item statuses: `active`, `claimed`, `archived`. -/
inductive ItemStatus where
  | active | claimed | archived
deriving DecidableEq

/-- Claim statuses: `pending`, `approved`, `rejected`. -/
inductive ClaimStatus where
  | pending | approved | rejected
deriving DecidableEq

/-- Admin decision body of PUT /claims/:id/status: validated to be
`approved` or `rejected`. -/
inductive Decision where
  | approved | rejected
deriving DecidableEq

/-- The claim status a decision writes. -/
def Decision.toStatus : Decision → ClaimStatus
  | .approved => .approved
  | .rejected => .rejected

/-- A row of the users table (fields the claim routes touch). -/
structure User where
  id : Nat
  role : Role
  points : Int
deriving DecidableEq

/-- A row of the items table (fields the claim/item routes touch). -/
structure Item where
  id : Nat
  title : String
  poster_id : Nat
  status : ItemStatus
  claimed_by : Option Nat
  date_lost : Option Nat
  date_found : Option Nat
  image_urls : List String
deriving DecidableEq

/-- A row of the claims table. -/
structure Claim where
  id : Nat
  item_id : Nat
  claimant_id : Nat
  proof_description : String
  proof_image_url : Option String
  status : ClaimStatus
  reviewed_by : Option Nat
  reviewed_at : Option Nat
  admin_notes : Option String
deriving DecidableEq

/-- A row of the notifications table. -/
structure Notification where
  user_id : Nat
  title : String
  message : String
  ntype : String
  data_itemId : Option Nat
  data_claimId : Option Nat
  data_claimantId : Option Nat
deriving DecidableEq

/-- The data store: the tables the claim-lifecycle routes read and write. -/
structure DB where
  users : List User
  items : List Item
  claims : List Claim
  notifications : List Notification
deriving DecidableEq

/-- `.single()` on a filtered query: a row iff the result set has exactly
one row; with zero or several rows PostgREST yields error PGRST116, which
every handler here treats as "not found". -/
def single? {α : Type} : List α → Option α
  | [x] => some x
  | _ => none

/-- `true` iff an `Except` result is a success. -/
def exOk {ε α : Type} : Except ε α → Bool
  | .ok _ => true
  | .error _ => false

instance {ε α : Type} [DecidableEq ε] [DecidableEq α] : DecidableEq (Except ε α) :=
  fun a b =>
    match a, b with
    | .error x, .error y => decidable_of_iff (x = y) (by simp)
    | .error _, .ok _ => isFalse (by simp)
    | .ok _, .error _ => isFalse (by simp)
    | .ok x, .ok y => decidable_of_iff (x = y) (by simp)

/-- Error kinds of POST /claims (§4.1 submitClaim).  `duplicateClaim`
carries the conflicting claim's status, surfaced to the caller as
`existingClaimStatus`. -/
inductive SubmitError where
  | notFound
  | invalidState
  | selfClaim
  | duplicateClaim (conflicting : ClaimStatus)
deriving DecidableEq

/-- Error kinds of PUT /claims/:id/status (§4.1 decideClaim).
`internalError` models the handler's catch-all 500 (reached when the
joined item row is missing and `claim.item.title` throws). -/
inductive DecideError where
  | notFound
  | alreadyReviewed
  | internalError
deriving DecidableEq

/-- The claim row POST /claims inserts: status `pending`, review fields
unset. -/
def mkPendingClaim (newId itemId claimantId : Nat) (proofDescription : String)
    (proofImageUrl : Option String) : Claim :=
  { id := newId
    item_id := itemId
    claimant_id := claimantId
    proof_description := proofDescription
    proof_image_url := proofImageUrl
    status := .pending
    reviewed_by := none
    reviewed_at := none
    admin_notes := none }

/-- The "New Claim on Your Item" notification POST /claims writes to the
item's poster. -/
def posterNewClaimNotif (item : Item) (itemId newClaimId : Nat) : Notification :=
  { user_id := item.poster_id
    title := "New Claim on Your Item"
    message := "Someone has claimed your item \"" ++ item.title ++ "\""
    ntype := "item_claimed"
    data_itemId := some itemId
    data_claimId := some newClaimId
    data_claimantId := none }

/-- The "New Claim to Review" notification POST /claims writes to one
admin. -/
def adminNewClaimNotif (admin : User) (item : Item)
    (itemId newClaimId claimantId : Nat) : Notification :=
  { user_id := admin.id
    title := "New Claim to Review"
    message := "A new claim has been submitted for item \"" ++ item.title ++ "\""
    ntype := "claim_submitted"
    data_itemId := some itemId
    data_claimId := some newClaimId
    data_claimantId := some claimantId }

/-- The admin users queried for the claim-submitted broadcast. -/
def adminsOf (db : DB) : List User :=
  db.users.filter (fun u => u.role = Role.admin)

/-- POST /claims (routes/claims.js, "Create new claim"), with the two
notification inserts' outcomes made explicit: `posterOk` (resp. `adminOk`)
is whether the poster (resp. admin broadcast) notification insert
succeeds at the store.  The handler never reads either insert's result,
so a failure only means the records are absent.  Steps, in source order:
item lookup via `.single()` (404), status must be `active` (400), caller
must not be the poster (400), duplicate lookup via `.single()` treating
PGRST116 as no-claim (400 with the conflicting status when the single
existing claim is not rejected), then insert of a pending claim, the
poster notification, the admin query and the admin broadcast. -/
def submitClaimWith (posterOk adminOk : Bool) (db : DB) (claimantId itemId : Nat)
    (proofDescription : String) (proofImageUrl : Option String) (newClaimId : Nat) :
    Except SubmitError Claim × DB :=
  match single? (db.items.filter (fun it => it.id = itemId)) with
  | none => (.error .notFound, db)
  | some item =>
    if item.status ≠ .active then (.error .invalidState, db)
    else if item.poster_id = claimantId then (.error .selfClaim, db)
    else
      let insert : Except SubmitError Claim × DB :=
        let newClaim := mkPendingClaim newClaimId itemId claimantId
          proofDescription proofImageUrl
        let db1 := { db with claims := db.claims ++ [newClaim] }
        let db2 :=
          if posterOk then
            { db1 with notifications :=
                db1.notifications ++ [posterNewClaimNotif item itemId newClaimId] }
          else db1
        let admins := adminsOf db
        let db3 :=
          if admins.isEmpty then db2
          else if adminOk then
            { db2 with notifications :=
                db2.notifications ++
                  admins.map (fun a => adminNewClaimNotif a item itemId newClaimId claimantId) }
          else db2
        (.ok newClaim, db3)
      match single? (db.claims.filter
          (fun c => c.item_id = itemId && c.claimant_id = claimantId)) with
      | some ec =>
        if ec.status ≠ .rejected then (.error (.duplicateClaim ec.status), db)
        else insert
      | none => insert

/-- POST /claims on the path where every store write succeeds. -/
def submitClaim (db : DB) (claimantId itemId : Nat) (proofDescription : String)
    (proofImageUrl : Option String) (newClaimId : Nat) :
    Except SubmitError Claim × DB :=
  submitClaimWith true true db claimantId itemId proofDescription proofImageUrl newClaimId

/-- The review-field update PUT /claims/:id/status writes to the pending
claim: status := decision, reviewed_by := admin, reviewed_at := now,
admin_notes := notes. -/
def reviewClaim (c : Claim) (decision : Decision) (adminId : Nat)
    (now : Nat) (adminNotes : Option String) : Claim :=
  { c with status := decision.toStatus
           reviewed_by := some adminId
           reviewed_at := some now
           admin_notes := adminNotes }

/-- The "Claim Approved"/"Claim Rejected" notification written to the
claimant on every decision. -/
def claimantDecisionNotif (c : Claim) (item : Item) (decision : Decision)
    (claimId : Nat) : Notification :=
  { user_id := c.claimant_id
    title := "Claim " ++ (if decision = .approved then "Approved" else "Rejected")
    message := "Your claim for \"" ++ item.title ++ "\" has been " ++
      (if decision = .approved then "approved" else "rejected")
    ntype := "claim_update"
    data_itemId := some c.item_id
    data_claimId := some claimId
    data_claimantId := none }

/-- The "Item Claimed" notification written to the item's poster when a
claim is approved. -/
def posterItemClaimedNotif (c : Claim) (item : Item) (claimId : Nat) :
    Notification :=
  { user_id := item.poster_id
    title := "Item Claimed"
    message := "Your item \"" ++ item.title ++ "\" has been claimed"
    ntype := "item_claimed"
    data_itemId := some c.item_id
    data_claimId := some claimId
    data_claimantId := none }

/-- PUT /claims/:id/status (routes/claims.js, "Update claim status"),
with the two notification inserts' outcomes explicit as in
`submitClaimWith`.  Steps, in source order: claim fetch via `.single()`
joining the item row (404), pending guard (400 "already been reviewed"),
claim update writing status/reviewed_by/reviewed_at/admin_notes, then, if
approved, the item update (status := claimed, claimed_by := claimant) and
the `increment_user_points` RPC (+20, result unread), then the claimant
notification and, if approved, the poster notification.  When the joined
item row is missing, `claim.item.title` throws inside the handler after
the claim/item/points writes, so the caller sees the catch-all 500
(`internalError`) while those writes stand. -/
def decideClaimWith (claimantOk posterOk : Bool) (db : DB) (adminId claimId : Nat)
    (decision : Decision) (adminNotes : Option String) (now : Nat) :
    Except DecideError Claim × DB :=
  match single? (db.claims.filter (fun c => c.id = claimId)) with
  | none => (.error .notFound, db)
  | some claim =>
    if claim.status ≠ .pending then (.error .alreadyReviewed, db)
    else
      let updated := reviewClaim claim decision adminId now adminNotes
      let claims2 := db.claims.map (fun c =>
        if c.id = claimId then reviewClaim c decision adminId now adminNotes else c)
      let db1 := { db with claims := claims2 }
      let db2 :=
        if decision = .approved then
          let items2 := db1.items.map (fun it =>
            if it.id = claim.item_id then
              { it with status := ItemStatus.claimed, claimed_by := some claim.claimant_id }
            else it)
          let users2 := db1.users.map (fun u =>
            if u.id = claim.claimant_id then { u with points := u.points + 20 } else u)
          { db1 with items := items2, users := users2 }
        else db1
      match single? (db.items.filter (fun it => it.id = claim.item_id)) with
      | none => (.error .internalError, db2)
      | some item =>
        let db3 :=
          if claimantOk then
            { db2 with notifications :=
                db2.notifications ++ [claimantDecisionNotif claim item decision claimId] }
          else db2
        let db4 :=
          if decision = .approved then
            if posterOk then
              { db3 with notifications :=
                  db3.notifications ++ [posterItemClaimedNotif claim item claimId] }
            else db3
          else db3
        (.ok updated, db4)

/-- PUT /claims/:id/status on the path where every store write succeeds. -/
def decideClaim (db : DB) (adminId claimId : Nat) (decision : Decision)
    (adminNotes : Option String) (now : Nat) : Except DecideError Claim × DB :=
  decideClaimWith true true db adminId claimId decision adminNotes now

/-- Error kinds of the item deletion handlers. -/
inductive DeleteError where
  | notFound
  | permissionDenied
deriving DecidableEq

/-- DELETE /:id on the items router ("Delete item (only by poster or
admin)"): item fetch via `.single()` (404), then 403 unless the caller is
the poster or an admin, then the row is deleted.  There is no check of
the item's status. -/
def deleteItem (db : DB) (callerId : Nat) (callerRole : Role) (itemId : Nat) :
    Except DeleteError Unit × DB :=
  match single? (db.items.filter (fun it => it.id = itemId)) with
  | none => (.error .notFound, db)
  | some currentItem =>
    if currentItem.poster_id ≠ callerId ∧ callerRole ≠ .admin then
      (.error .permissionDenied, db)
    else
      (.ok (), { db with items := db.items.filter (fun it => ¬ it.id = itemId) })

/-- The "Item Archived" notification the admin status-override route
writes to the poster when it sets status to archived. -/
def itemArchivedNotif (updatedItem : Item) (itemId : Nat) : Notification :=
  { user_id := updatedItem.poster_id
    title := "Item Archived"
    message := "Your item \"" ++ updatedItem.title ++ "\" has been archived by admin"
    ntype := "item_archived"
    data_itemId := some itemId
    data_claimId := none
    data_claimantId := none }

/-- PUT /items/:id/status on the admin router ("Update item status
(admin only)"): `update({ status }).eq('id', id).select(...).single()` —
the update patch contains only the status field; every row matching the
id is patched, and `.single()` then yields the row (500 when the match is
not exactly one row, the patch still applied).  A poster notification is
inserted only when the new status is `archived`. -/
def adminSetItemStatus (db : DB) (itemId : Nat) (newStatus : ItemStatus)
    (_adminNotes : Option String) : Except DecideError Item × DB :=
  let items2 := db.items.map (fun it =>
    if it.id = itemId then { it with status := newStatus } else it)
  let db1 := { db with items := items2 }
  match single? (items2.filter (fun it => it.id = itemId)) with
  | none => (.error .internalError, db1)
  | some updatedItem =>
    let db2 :=
      if newStatus = .archived then
        { db1 with notifications :=
            db1.notifications ++ [itemArchivedNotif updatedItem itemId] }
      else db1
    (.ok updatedItem, db2)

/-- The count of claims on item `itemId` by claimant `claimantId` whose
status is pending or approved (the §8 uniqueness-invariant measure). -/
def countPendingApproved (db : DB) (itemId claimantId : Nat) : Nat :=
  (db.claims.filter (fun c => c.item_id = itemId ∧ c.claimant_id = claimantId ∧
    (c.status = .pending ∨ c.status = .approved))).length

/-- No claim in the store is a self-claim: whenever a claim's item resolves
(uniquely) in the items table, the claimant differs from the poster.  Every
state reachable through the routes satisfies this, since POST /claims
rejects self-claims before inserting. -/
def selfFree (db : DB) : Bool :=
  db.claims.all (fun c =>
    match single? (db.items.filter (fun it => it.id = c.item_id)) with
    | some it => ¬ c.claimant_id = it.poster_id
    | none => true)

/-- The duplicate-claim check of POST /claims, exactly as the handler
performs it: pass when the `.single()` lookup yields no row (zero or
several claims by this claimant on this item) or when the single row it
yields is a rejected claim. -/
def dupCheckPasses (db : DB) (itemId claimantId : Nat) : Bool :=
  match single? (db.claims.filter
      (fun c => c.item_id = itemId && c.claimant_id = claimantId)) with
  | some ec => ec.status = .rejected
  | none => true

/-! Concrete states used to exercise the routes: user 1 posts item 10,
user 2 is a claimant, users 3 and 4 are the admins (the §8 scenario). -/

/-- Initial store: poster 1, claimant 2, admins 3 and 4, item 10 active. -/
def dbA : DB :=
  { users := [⟨1, .student, 0⟩, ⟨2, .student, 0⟩, ⟨3, .admin, 0⟩, ⟨4, .admin, 0⟩]
    items := [⟨10, "Wallet", 1, .active, none, none, some 5, []⟩]
    claims := []
    notifications := [] }

/-- `dbA` after claimant 2's first claim (id 100) on item 10. -/
def dbB : DB := (submitClaim dbA 2 10 "p1" none 100).2

/-- `dbB` after admin 3 rejects claim 100. -/
def dbC : DB := (decideClaim dbB 3 100 .rejected none 50).2

/-- `dbC` after claimant 2 resubmits (claim 101, pending): item 10 now has
a rejected claim and a pending claim by claimant 2. -/
def dbD : DB := (submitClaim dbC 2 10 "p2" none 101).2

/-- A store whose only item (id 10, poster 1) is already claimed. -/
def dbClaimed : DB :=
  { users := [⟨1, .student, 0⟩, ⟨2, .student, 0⟩, ⟨3, .admin, 0⟩]
    items := [⟨10, "Wallet", 1, .claimed, some 9, none, some 5, []⟩]
    claims := []
    notifications := [] }

/-! Basic lemmas about the store model. -/

theorem single?_eq_some_iff {α : Type} {l : List α} {x : α} :
    single? l = some x ↔ l = [x] := by
  cases l with
  | nil => simp [single?]
  | cons a t =>
    cases t with
    | nil => simp [single?]
    | cons b u => simp [single?]

theorem filter_map_of_pres {α : Type} (f : α → α) (p : α → Bool) (l : List α)
    (h : ∀ x, p (f x) = p x) : (l.map f).filter p = (l.filter p).map f := by
  rw [List.filter_map]
  congr 1
  exact List.filter_congr (fun x _ => h x)

theorem map_map_of_pres {α β : Type} (f : α → α) (g : α → β) (l : List α)
    (h : ∀ x, g (f x) = g x) : (l.map f).map g = l.map g := by
  rw [List.map_map]
  have hfg : (g ∘ f) = g := funext h
  rw [hfg]

/-! The claims. -/

/-- Claim C1: for every item I and claimant C, after any sequence of
submitClaim and decideClaim operations, the number of claims on I by C
with status pending or approved is at most 1.  The code violates this:
the duplicate-claim lookup uses `.single()`, whose error code for a
multi-row result (PGRST116) is the same one the handler treats as "no
existing claim", so once claimant 2 holds a rejected claim and a pending
claim on item 10 (the normal state after reject + resubmit), a further
submit bypasses the duplicate check and inserts a second pending claim.
This theorem replays that operation sequence from the initial store `dbA`
and exhibits the invariant measure reaching 2. -/
theorem submit_uniqueness_invariant_broken :
    exOk (submitClaim dbA 2 10 "p1" none 100).1 = true ∧
    exOk (decideClaim dbB 3 100 .rejected none 50).1 = true ∧
    exOk (submitClaim dbC 2 10 "p2" none 101).1 = true ∧
    countPendingApproved dbD 10 2 = 1 ∧
    exOk (submitClaim dbD 2 10 "p3" none 102).1 = true ∧
    countPendingApproved (submitClaim dbD 2 10 "p3" none 102).2 10 2 = 2 := by
  decide

/-- Claim C2: a decideClaim call on a claim whose status is not pending
fails with AlreadyReviewed and leaves the store untouched (so the claim's
status, reviewed_by, reviewed_at and admin_notes can never change after
the first successful decision, which makes the claim non-pending); and
decideClaim on an existing pending claim writes status := decision,
reviewed_by := the deciding admin, reviewed_at := now, and
admin_notes := the supplied notes. -/
theorem decideClaim_terminal (db : DB) (adminId claimId : Nat)
    (decision : Decision) (notes : Option String) (now : Nat) :
    (∀ c, single? (db.claims.filter (fun x => x.id = claimId)) = some c →
      c.status ≠ .pending →
      decideClaim db adminId claimId decision notes now = (.error .alreadyReviewed, db))
    ∧
    (∀ c, single? (db.claims.filter (fun x => x.id = claimId)) = some c →
      c.status = .pending →
      (decideClaim db adminId claimId decision notes now).2.claims =
        db.claims.map (fun x =>
          if x.id = claimId then
            { x with status := decision.toStatus, reviewed_by := some adminId,
                     reviewed_at := some now, admin_notes := notes }
          else x)) := by
  constructor
  · intro c hc hst
    simp only [decideClaim, decideClaimWith, hc]
    simp [hst]
  · intro c hc hst
    simp only [decideClaim, decideClaimWith, hc]
    simp only [hst, ne_eq, not_true_eq_false, if_false, ite_false]
    cases h2 : single? (db.items.filter fun it => it.id = c.item_id) with
    | none => split_ifs <;> simp [h2, reviewClaim]
    | some item => split_ifs <;> simp [h2, reviewClaim]

/-- Witness for C2 at the concrete stores: admin 4 re-deciding the
rejected claim 100 in `dbC` gets AlreadyReviewed with the store unchanged,
and admin 3 deciding the pending claim 100 in `dbB` writes the review
fields. -/
theorem decideClaim_terminal_witness :
    decideClaim dbC 4 100 .approved none 60 = (.error .alreadyReviewed, dbC) ∧
    (decideClaim dbB 3 100 .rejected none 50).2.claims =
      dbB.claims.map (fun x =>
        if x.id = 100 then
          { x with status := Decision.rejected.toStatus, reviewed_by := some 3,
                   reviewed_at := some 50, admin_notes := none }
        else x) :=
  ⟨(decideClaim_terminal dbC 4 100 .approved none 60).1
      ⟨100, 10, 2, "p1", none, .rejected, some 3, some 50, none⟩
      (by decide) (by decide),
   (decideClaim_terminal dbB 3 100 .rejected none 50).2
      ⟨100, 10, 2, "p1", none, .pending, none, none, none⟩
      (by decide) (by decide)⟩

/-- Claim C3: approving a pending claim sets the associated item's status
to claimed with claimed_by the claimant and adds exactly 20 points to the
claimant; rejecting a pending claim leaves the items and users tables
unchanged. -/
theorem decideClaim_approval_effects (db : DB) (adminId claimId : Nat)
    (notes : Option String) (now : Nat) (c : Claim)
    (hc : single? (db.claims.filter (fun x => x.id = claimId)) = some c)
    (hp : c.status = .pending) :
    (∀ it u, db.items.filter (fun x => x.id = c.item_id) = [it] →
      db.users.filter (fun x => x.id = c.claimant_id) = [u] →
      (decideClaim db adminId claimId .approved notes now).2.items.filter
          (fun x => x.id = c.item_id) =
        [{ it with status := .claimed, claimed_by := some c.claimant_id }] ∧
      (decideClaim db adminId claimId .approved notes now).2.users.filter
          (fun x => x.id = c.claimant_id) =
        [{ u with points := u.points + 20 }])
    ∧
    ((decideClaim db adminId claimId .rejected notes now).2.items = db.items ∧
     (decideClaim db adminId claimId .rejected notes now).2.users = db.users) := by
  constructor
  · intro it u hit hu
    have hsit : single? (db.items.filter (fun x => x.id = c.item_id)) = some it := by
      rw [hit]; rfl
    have hitid : it.id = c.item_id := by
      have hmem : it ∈ db.items.filter (fun x => x.id = c.item_id) := by
        rw [hit]; exact List.mem_singleton.mpr rfl
      exact of_decide_eq_true (List.mem_filter.mp hmem).2
    have huid : u.id = c.claimant_id := by
      have hmem : u ∈ db.users.filter (fun x => x.id = c.claimant_id) := by
        rw [hu]; exact List.mem_singleton.mpr rfl
      exact of_decide_eq_true (List.mem_filter.mp hmem).2
    simp only [decideClaim, decideClaimWith, hc]
    simp only [hp, ne_eq, not_true_eq_false, if_false, ite_false, hsit]
    simp only [reduceIte]
    constructor
    · rw [filter_map_of_pres
        (fun x => if x.id = c.item_id then
          { x with status := ItemStatus.claimed, claimed_by := some c.claimant_id }
          else x)
        (fun x => decide (x.id = c.item_id)) db.items
        (by intro x; by_cases h : x.id = c.item_id <;> simp [h])]
      rw [hit]
      simp [hitid]
    · rw [filter_map_of_pres
        (fun x => if x.id = c.claimant_id then { x with points := x.points + 20 } else x)
        (fun x => decide (x.id = c.claimant_id)) db.users
        (by intro x; by_cases h : x.id = c.claimant_id <;> simp [h])]
      rw [hu]
      simp [huid]
  · constructor <;>
    · simp only [decideClaim, decideClaimWith, hc]
      simp only [hp, ne_eq, not_true_eq_false, if_false, ite_false]
      cases h2 : single? (db.items.filter fun x => x.id = c.item_id) with
      | none => simp [h2]
      | some item => simp [h2]

/-- Witness for C3 at the concrete store `dbB` (claim 100 pending):
approval marks item 10 claimed by claimant 2 and raises user 2's points
from 0 to 20; rejection leaves items and users as they were. -/
theorem decideClaim_approval_effects_witness :
    (decideClaim dbB 3 100 .approved (some "id matched") 777).2.items.filter
        (fun x => x.id = 10) =
      [⟨10, "Wallet", 1, .claimed, some 2, none, some 5, []⟩] ∧
    (decideClaim dbB 3 100 .approved (some "id matched") 777).2.users.filter
        (fun x => x.id = 2) = [⟨2, .student, 20⟩] ∧
    (decideClaim dbB 3 100 .rejected none 50).2.items = dbB.items ∧
    (decideClaim dbB 3 100 .rejected none 50).2.users = dbB.users := by
  have h1 := (decideClaim_approval_effects dbB 3 100 (some "id matched") 777
    ⟨100, 10, 2, "p1", none, .pending, none, none, none⟩ (by decide) (by decide)).1
    ⟨10, "Wallet", 1, .active, none, none, some 5, []⟩ ⟨2, .student, 0⟩
    (by decide) (by decide)
  have h2 := (decideClaim_approval_effects dbB 3 100 none 50
    ⟨100, 10, 2, "p1", none, .pending, none, none, none⟩ (by decide) (by decide)).2
  exact ⟨h1.1, h1.2, h2.1, h2.2⟩

/-- When the item resolves, is active, is not the caller's own, and the
duplicate lookup does not block, POST /claims inserts a pending claim. -/
theorem submit_success_core (db : DB) (claimantId itemId newId : Nat)
    (pd : String) (piu : Option String) (item : Item)
    (hitem : single? (db.items.filter (fun it => it.id = itemId)) = some item)
    (hact : item.status = .active) (hne : item.poster_id ≠ claimantId)
    (hdup : dupCheckPasses db itemId claimantId = true) :
    (submitClaim db claimantId itemId pd piu newId).1 =
      .ok (mkPendingClaim newId itemId claimantId pd piu) ∧
    (submitClaim db claimantId itemId pd piu newId).2.claims =
      db.claims ++ [mkPendingClaim newId itemId claimantId pd piu] := by
  unfold dupCheckPasses at hdup
  simp only [submitClaim, submitClaimWith, hitem]
  simp only [hact, ne_eq, not_true_eq_false, if_false, ite_false]
  cases hec : single? (db.claims.filter
      (fun c => c.item_id = itemId && c.claimant_id = claimantId)) with
  | none =>
    cases hemp : (adminsOf db).isEmpty <;> simp [hec, hne, hemp]
  | some ec =>
    rw [hec] at hdup
    have hrej : ec.status = .rejected := of_decide_eq_true hdup
    cases hemp : (adminsOf db).isEmpty <;> simp [hec, hne, hemp, hrej]

/-- Claim C4 counterexample: in `dbD` claimant 2 has a pending claim on
item 10 (claim 101, inserted after claim 100 was rejected), yet a further
submitClaim by claimant 2 on item 10 succeeds instead of failing with
DuplicateClaim: with two rows, the `.single()` duplicate lookup errors
with PGRST116 and the handler treats that as "no existing claim". -/
theorem submit_duplicate_check_counterexample :
    dbD.claims.any (fun c => c.item_id = 10 ∧ c.claimant_id = 2 ∧
      c.status = .pending) = true ∧
    exOk (submitClaim dbD 2 10 "p3" none 102).1 = true := by
  decide

/-- Claim C4 (amended): submitClaim enforces its preconditions in order —
(1) unresolvable item (no unique row) fails NotFound; (2) item not active
fails InvalidState; (3) claimant equal to the poster fails SelfClaim;
(4) when the claimant's claims on the item resolve to exactly one row
whose status is not rejected, it fails DuplicateClaim carrying that
claim's status; otherwise (no row, a rejected row, or several rows) a
claim with status pending is persisted. -/
theorem submit_precondition_chain (db : DB) (claimantId itemId newId : Nat)
    (pd : String) (piu : Option String) :
    (single? (db.items.filter (fun it => it.id = itemId)) = none →
      submitClaim db claimantId itemId pd piu newId = (.error .notFound, db))
    ∧
    (∀ item, single? (db.items.filter (fun it => it.id = itemId)) = some item →
      item.status ≠ .active →
      submitClaim db claimantId itemId pd piu newId = (.error .invalidState, db))
    ∧
    (∀ item, single? (db.items.filter (fun it => it.id = itemId)) = some item →
      item.status = .active → item.poster_id = claimantId →
      submitClaim db claimantId itemId pd piu newId = (.error .selfClaim, db))
    ∧
    (∀ item ec, single? (db.items.filter (fun it => it.id = itemId)) = some item →
      item.status = .active → item.poster_id ≠ claimantId →
      single? (db.claims.filter
        (fun c => c.item_id = itemId && c.claimant_id = claimantId)) = some ec →
      ec.status ≠ .rejected →
      submitClaim db claimantId itemId pd piu newId =
        (.error (.duplicateClaim ec.status), db))
    ∧
    (∀ item, single? (db.items.filter (fun it => it.id = itemId)) = some item →
      item.status = .active → item.poster_id ≠ claimantId →
      dupCheckPasses db itemId claimantId = true →
      (submitClaim db claimantId itemId pd piu newId).1 =
        .ok (mkPendingClaim newId itemId claimantId pd piu) ∧
      (submitClaim db claimantId itemId pd piu newId).2.claims =
        db.claims ++ [mkPendingClaim newId itemId claimantId pd piu]) := by
  refine ⟨?_, ?_, ?_, ?_, ?_⟩
  · intro h
    simp [submitClaim, submitClaimWith, h]
  · intro item h hst
    simp [submitClaim, submitClaimWith, h, hst]
  · intro item h hst hself
    simp [submitClaim, submitClaimWith, h, hst, hself]
  · intro item ec h hst hne hec hrej
    simp [submitClaim, submitClaimWith, h, hst, hne, hec, hrej]
  · intro item h hst hne hdup
    exact submit_success_core db claimantId itemId newId pd piu item h hst hne hdup

/-- Witness for C4 at the concrete stores: a missing item id, a claimed
item, a self-claim, a single pending duplicate, and a resubmission after
rejection, each hitting its branch of the chain. -/
theorem submit_precondition_chain_witness :
    submitClaim dbA 2 99 "p" none 200 = (.error .notFound, dbA) ∧
    submitClaim dbClaimed 2 10 "p" none 200 = (.error .invalidState, dbClaimed) ∧
    submitClaim dbA 1 10 "p" none 200 = (.error .selfClaim, dbA) ∧
    submitClaim dbB 2 10 "p" none 200 = (.error (.duplicateClaim .pending), dbB) ∧
    (submitClaim dbC 2 10 "p2" none 101).1 = .ok (mkPendingClaim 101 10 2 "p2" none) :=
  ⟨(submit_precondition_chain dbA 2 99 200 "p" none).1 (by decide),
   (submit_precondition_chain dbClaimed 2 10 200 "p" none).2.1
      ⟨10, "Wallet", 1, .claimed, some 9, none, some 5, []⟩ (by decide) (by decide),
   (submit_precondition_chain dbA 1 10 200 "p" none).2.2.1
      ⟨10, "Wallet", 1, .active, none, none, some 5, []⟩ (by decide) (by decide) (by decide),
   (submit_precondition_chain dbB 2 10 200 "p" none).2.2.2.1
      ⟨10, "Wallet", 1, .active, none, none, some 5, []⟩
      ⟨100, 10, 2, "p1", none, .pending, none, none, none⟩
      (by decide) (by decide) (by decide) (by decide) (by decide),
   ((submit_precondition_chain dbC 2 10 101 "p2" none).2.2.2.2
      ⟨10, "Wallet", 1, .active, none, none, some 5, []⟩
      (by decide) (by decide) (by decide) (by decide)).1⟩

/-- Claim C5: a successful submitClaim on an item with N admin users
creates exactly 1 + N notifications, one addressed to the item's poster
and one per admin; a successful decideClaim creates 1 notification (to
the claimant) when rejecting and 2 (claimant, then the item's poster)
when approving. -/
theorem notification_fanout :
    (∀ (db : DB) (claimantId itemId newId : Nat) (pd : String)
        (piu : Option String) (item : Item),
      single? (db.items.filter (fun it => it.id = itemId)) = some item →
      exOk (submitClaim db claimantId itemId pd piu newId).1 = true →
      (submitClaim db claimantId itemId pd piu newId).2.notifications =
        db.notifications ++
          posterNewClaimNotif item itemId newId ::
            (adminsOf db).map (fun a => adminNewClaimNotif a item itemId newId claimantId) ∧
      (submitClaim db claimantId itemId pd piu newId).2.notifications.length =
        db.notifications.length + (1 + (adminsOf db).length) ∧
      (((submitClaim db claimantId itemId pd piu newId).2.notifications.drop
          db.notifications.length).map (fun n => n.user_id)) =
        item.poster_id :: (adminsOf db).map (fun u => u.id))
    ∧
    (∀ (db : DB) (adminId claimId : Nat) (decision : Decision)
        (notes : Option String) (now : Nat) (c : Claim) (item : Item),
      single? (db.claims.filter (fun x => x.id = claimId)) = some c →
      single? (db.items.filter (fun x => x.id = c.item_id)) = some item →
      exOk (decideClaim db adminId claimId decision notes now).1 = true →
      (decideClaim db adminId claimId decision notes now).2.notifications =
        db.notifications ++
          (if decision = .approved then
            [claimantDecisionNotif c item decision claimId,
             posterItemClaimedNotif c item claimId]
          else [claimantDecisionNotif c item decision claimId]) ∧
      (((decideClaim db adminId claimId decision notes now).2.notifications.drop
          db.notifications.length).map (fun n => n.user_id)) =
        (if decision = .approved then [c.claimant_id, item.poster_id]
         else [c.claimant_id])) := by
  constructor
  · intro db claimantId itemId newId pd piu item hitem hok
    have key : (submitClaim db claimantId itemId pd piu newId).2.notifications =
        db.notifications ++
          posterNewClaimNotif item itemId newId ::
            (adminsOf db).map (fun a => adminNewClaimNotif a item itemId newId claimantId) := by
      simp only [submitClaim, submitClaimWith, hitem] at hok ⊢
      by_cases hst : item.status = .active
      · simp only [hst, ne_eq, not_true_eq_false, if_false, ite_false] at hok ⊢
        by_cases hself : item.poster_id = claimantId
        · simp [hself, exOk] at hok
        · simp only [hself, if_false, ite_false] at hok ⊢
          cases hec : single? (db.claims.filter
              (fun c => c.item_id = itemId && c.claimant_id = claimantId)) with
          | none =>
            cases hemp : (adminsOf db).isEmpty with
            | true =>
              have : adminsOf db = [] := by simpa [List.isEmpty_iff] using hemp
              simp [hec, hemp, this]
            | false => simp [hec, hemp]
          | some ec =>
            by_cases hr : ec.status = .rejected
            · cases hemp : (adminsOf db).isEmpty with
              | true =>
                have : adminsOf db = [] := by simpa [List.isEmpty_iff] using hemp
                simp [hec, hr, hemp, this]
              | false => simp [hec, hr, hemp]
            · simp [hec, hr, exOk] at hok
      · simp [hst, exOk] at hok
    refine ⟨key, ?_, ?_⟩
    · rw [key]; simp [Nat.add_comm]
    · rw [key, List.drop_left]
      simp [posterNewClaimNotif, adminNewClaimNotif, List.map_map, Function.comp]
  · intro db adminId claimId decision notes now c item hc hitem hok
    have key : (decideClaim db adminId claimId decision notes now).2.notifications =
        db.notifications ++
          (if decision = .approved then
            [claimantDecisionNotif c item decision claimId,
             posterItemClaimedNotif c item claimId]
          else [claimantDecisionNotif c item decision claimId]) := by
      simp only [decideClaim, decideClaimWith, hc] at hok ⊢
      by_cases hp : c.status = .pending
      · simp only [hp, ne_eq, not_true_eq_false, if_false, ite_false] at hok ⊢
        cases decision with
        | approved => simp [hitem]
        | rejected => simp [hitem]
      · simp [hp, exOk] at hok
    refine ⟨key, ?_⟩
    rw [key, List.drop_left]
    cases decision with
    | approved => simp [claimantDecisionNotif, posterItemClaimedNotif]
    | rejected => simp [claimantDecisionNotif]

/-- Witness for C5 at the concrete stores: submitting on `dbA` (two
admins) writes three notifications addressed to poster 1 and admins 3 and
4; rejecting in `dbB` writes one to claimant 2; approving in `dbB` writes
two, to claimant 2 and poster 1. -/
theorem notification_fanout_witness :
    (submitClaim dbA 2 10 "p1" none 100).2.notifications.length = 0 + (1 + 2) ∧
    (((submitClaim dbA 2 10 "p1" none 100).2.notifications.drop 0).map
      (fun n => n.user_id)) = 1 :: [3, 4] ∧
    (((decideClaim dbB 3 100 .rejected none 50).2.notifications.drop
        dbB.notifications.length).map (fun n => n.user_id)) = [2] ∧
    (((decideClaim dbB 3 100 .approved none 50).2.notifications.drop
        dbB.notifications.length).map (fun n => n.user_id)) = [2, 1] := by
  have hs := (notification_fanout.1 dbA 2 10 100 "p1" none
    ⟨10, "Wallet", 1, .active, none, none, some 5, []⟩ (by decide) (by decide))
  have hr := (notification_fanout.2 dbB 3 100 .rejected none 50
    ⟨100, 10, 2, "p1", none, .pending, none, none, none⟩
    ⟨10, "Wallet", 1, .active, none, none, some 5, []⟩
    (by decide) (by decide) (by decide))
  have ha := (notification_fanout.2 dbB 3 100 .approved none 50
    ⟨100, 10, 2, "p1", none, .pending, none, none, none⟩
    ⟨10, "Wallet", 1, .active, none, none, some 5, []⟩
    (by decide) (by decide) (by decide))
  refine ⟨?_, ?_, ?_, ?_⟩
  · simpa using hs.2.1
  · simpa using hs.2.2
  · simpa using hr.2
  · simpa using ha.2

/-- Claim C6 counterexample: the poster of item 10 in `dbClaimed` (whose
status is claimed) submits a claim on their own item and receives
InvalidState, not SelfClaim: the handler checks the item's status before
the self-claim check, so SelfClaim is not returned "regardless of item
status". -/
theorem selfclaim_preempted_counterexample :
    dbClaimed.items.map (fun it => (it.poster_id, it.status)) =
      [(1, ItemStatus.claimed)] ∧
    (submitClaim dbClaimed 1 10 "p" none 200).1 = .error .invalidState := by
  decide

/-- Claim C6 (amended): when the item is active, a submitClaim by the
item's poster fails with SelfClaim; when the item's status is not active,
submitClaim fails with InvalidState before the self-claim check is ever
reached, whoever the claimant is. -/
theorem selfclaim_only_when_active (db : DB) (claimantId itemId newId : Nat)
    (pd : String) (piu : Option String) (item : Item)
    (h : single? (db.items.filter (fun it => it.id = itemId)) = some item) :
    (item.status = .active → item.poster_id = claimantId →
      submitClaim db claimantId itemId pd piu newId = (.error .selfClaim, db)) ∧
    (item.status ≠ .active →
      submitClaim db claimantId itemId pd piu newId = (.error .invalidState, db)) := by
  constructor
  · intro hst hself
    simp [submitClaim, submitClaimWith, h, hst, hself]
  · intro hst
    simp [submitClaim, submitClaimWith, h, hst]

/-- Witness for C6 (amended) at the concrete stores: the poster
self-claiming the active item 10 in `dbA` gets SelfClaim; the poster
self-claiming the claimed item 10 in `dbClaimed` gets InvalidState. -/
theorem selfclaim_only_when_active_witness :
    submitClaim dbA 1 10 "q" none 201 = (.error .selfClaim, dbA) ∧
    submitClaim dbClaimed 1 10 "q" none 201 = (.error .invalidState, dbClaimed) :=
  ⟨(selfclaim_only_when_active dbA 1 10 201 "q" none
      ⟨10, "Wallet", 1, .active, none, none, some 5, []⟩ (by decide)).1
      (by decide) (by decide),
   (selfclaim_only_when_active dbClaimed 1 10 201 "q" none
      ⟨10, "Wallet", 1, .claimed, some 9, none, some 5, []⟩ (by decide)).2
      (by decide)⟩

/-- Claim C7: in any self-claim-free store where a claimant holds a
rejected claim on an active item, a new submitClaim by that claimant on
that item succeeds and appends a fresh pending claim.  (With exactly one
prior claim the rejected status passes the duplicate check; with several
prior rows the `.single()` lookup yields PGRST116 and the check passes as
well.) -/
theorem resubmit_after_rejection (db : DB) (claimantId itemId newId : Nat)
    (pd : String) (piu : Option String) (item : Item) (c : Claim)
    (hsf : selfFree db = true)
    (hitem : single? (db.items.filter (fun it => it.id = itemId)) = some item)
    (hact : item.status = .active)
    (hmem : c ∈ db.claims) (hci : c.item_id = itemId)
    (hcc : c.claimant_id = claimantId) (hcr : c.status = .rejected) :
    (submitClaim db claimantId itemId pd piu newId).1 =
      .ok (mkPendingClaim newId itemId claimantId pd piu) ∧
    (submitClaim db claimantId itemId pd piu newId).2.claims =
      db.claims ++ [mkPendingClaim newId itemId claimantId pd piu] := by
  have hall := List.all_eq_true.mp hsf c hmem
  simp only [selfFree, hci, hitem] at hall
  have hne : item.poster_id ≠ claimantId := by
    have hne0 := of_decide_eq_true hall
    rw [hcc] at hne0
    exact fun h => hne0 h.symm
  have hdup : dupCheckPasses db itemId claimantId = true := by
    unfold dupCheckPasses
    cases hec : single? (db.claims.filter
        (fun x => x.item_id = itemId && x.claimant_id = claimantId)) with
    | none => rfl
    | some ec =>
      have hfil := single?_eq_some_iff.mp hec
      have hcmem : c ∈ db.claims.filter
          (fun x => x.item_id = itemId && x.claimant_id = claimantId) :=
        List.mem_filter.mpr ⟨hmem, by simp [hci, hcc]⟩
      rw [hfil] at hcmem
      have hce : c = ec := List.mem_singleton.mp hcmem
      subst hce
      simp [hcr]
  exact submit_success_core db claimantId itemId newId pd piu item hitem hact hne hdup

/-- Witness for C7 at the concrete store `dbC`, where claimant 2's claim
100 on the active item 10 is rejected: resubmission succeeds with a new
pending claim 101. -/
theorem resubmit_after_rejection_witness :
    (submitClaim dbC 2 10 "p2" none 101).1 =
      .ok (mkPendingClaim 101 10 2 "p2" none) ∧
    (submitClaim dbC 2 10 "p2" none 101).2.claims =
      dbC.claims ++ [mkPendingClaim 101 10 2 "p2" none] :=
  resubmit_after_rejection dbC 2 10 101 "p2" none
    ⟨10, "Wallet", 1, .active, none, none, some 5, []⟩
    ⟨100, 10, 2, "p1", none, .rejected, some 3, some 50, none⟩
    (by decide) (by decide) (by decide) (by decide) (by decide) (by decide) (by decide)

/-- Claim C8: whether or not the notification inserts succeed at the
store, submitClaim and decideClaim return the same result and leave the
claims, items and users tables exactly as on the all-successful path —
the handlers never read the notification inserts' results, so a failed
insert is never surfaced and never rolls anything back. -/
theorem notification_failures_do_not_affect_primary
    (posterOk adminOk claimantOk posterOk2 : Bool) (db : DB)
    (claimantId itemId newId adminId claimId now : Nat) (pd : String)
    (piu : Option String) (decision : Decision) (notes : Option String) :
    ((submitClaimWith posterOk adminOk db claimantId itemId pd piu newId).1 =
        (submitClaim db claimantId itemId pd piu newId).1 ∧
      (submitClaimWith posterOk adminOk db claimantId itemId pd piu newId).2.claims =
        (submitClaim db claimantId itemId pd piu newId).2.claims ∧
      (submitClaimWith posterOk adminOk db claimantId itemId pd piu newId).2.items =
        (submitClaim db claimantId itemId pd piu newId).2.items ∧
      (submitClaimWith posterOk adminOk db claimantId itemId pd piu newId).2.users =
        (submitClaim db claimantId itemId pd piu newId).2.users)
    ∧
    ((decideClaimWith claimantOk posterOk2 db adminId claimId decision notes now).1 =
        (decideClaim db adminId claimId decision notes now).1 ∧
      (decideClaimWith claimantOk posterOk2 db adminId claimId decision notes now).2.claims =
        (decideClaim db adminId claimId decision notes now).2.claims ∧
      (decideClaimWith claimantOk posterOk2 db adminId claimId decision notes now).2.items =
        (decideClaim db adminId claimId decision notes now).2.items ∧
      (decideClaimWith claimantOk posterOk2 db adminId claimId decision notes now).2.users =
        (decideClaim db adminId claimId decision notes now).2.users) := by
  constructor
  · cases hitem : single? (db.items.filter fun it => it.id = itemId) with
    | none => simp [submitClaim, submitClaimWith, hitem]
    | some item =>
      by_cases hst : item.status = .active
      · by_cases hself : item.poster_id = claimantId
        · simp [submitClaim, submitClaimWith, hitem, hst, hself]
        · cases hec : single? (db.claims.filter
              (fun c => c.item_id = itemId && c.claimant_id = claimantId)) with
          | none =>
            cases posterOk <;> cases adminOk <;>
              cases hemp : (adminsOf db).isEmpty <;>
              simp [submitClaim, submitClaimWith, hitem, hst, hself, hec, hemp]
          | some ec =>
            by_cases hr : ec.status = .rejected
            · cases posterOk <;> cases adminOk <;>
                cases hemp : (adminsOf db).isEmpty <;>
                simp [submitClaim, submitClaimWith, hitem, hst, hself, hec, hemp, hr]
            · simp [submitClaim, submitClaimWith, hitem, hst, hself, hec, hr]
      · simp [submitClaim, submitClaimWith, hitem, hst]
  · cases hcm : single? (db.claims.filter fun x => x.id = claimId) with
    | none => simp [decideClaim, decideClaimWith, hcm]
    | some c =>
      by_cases hp : c.status = .pending
      · cases hit : single? (db.items.filter fun x => x.id = c.item_id) with
        | none => cases decision <;> simp [decideClaim, decideClaimWith, hcm, hp, hit]
        | some item =>
          cases decision <;> cases claimantOk <;> cases posterOk2 <;>
            simp [decideClaim, decideClaimWith, hcm, hp, hit]
      · simp [decideClaim, decideClaimWith, hcm, hp]

/-- Witness for C8 at the concrete store `dbA`: with both notification
inserts failing, submitClaim still returns the same result and claims
table as on the all-successful path. -/
theorem notification_failures_witness :
    (submitClaimWith false false dbA 2 10 "p1" none 100).1 =
      (submitClaim dbA 2 10 "p1" none 100).1 ∧
    (submitClaimWith false false dbA 2 10 "p1" none 100).2.claims =
      (submitClaim dbA 2 10 "p1" none 100).2.claims :=
  ⟨(notification_failures_do_not_affect_primary false false false false dbA
      2 10 100 3 100 77 "p1" none .approved none).1.1,
   (notification_failures_do_not_affect_primary false false false false dbA
      2 10 100 3 100 77 "p1" none .approved none).1.2.1⟩

/-- Claim C9 counterexample: item 10 in `dbClaimed` has status claimed,
yet its poster (user 1, a non-admin) deletes it successfully — the items
router's delete handler checks only poster-or-admin, with no unclaimed
guard. -/
theorem delete_claimed_item_counterexample :
    dbClaimed.items.map (fun it => (it.poster_id, it.status)) =
      [(1, ItemStatus.claimed)] ∧
    (deleteItem dbClaimed 1 .student 10).1 = .ok () := by
  decide

/-- Claim C9 (amended): item deletion on the items router succeeds exactly
when the caller is the item's poster or an admin, with no check of the
item's status (a non-admin poster can delete a claimed item); any other
caller receives PermissionDenied. -/
theorem delete_item_permissions (db : DB) (callerId : Nat) (role : Role)
    (itemId : Nat) (item : Item)
    (h : single? (db.items.filter (fun it => it.id = itemId)) = some item) :
    (item.poster_id ≠ callerId → role ≠ .admin →
      deleteItem db callerId role itemId = (.error .permissionDenied, db)) ∧
    (item.poster_id = callerId ∨ role = .admin →
      deleteItem db callerId role itemId =
        (.ok (), { db with items := db.items.filter (fun it => ¬ it.id = itemId) })) := by
  constructor
  · intro hp hr
    simp [deleteItem, h, hp, hr]
  · intro hor
    rcases hor with h1 | h2
    · simp [deleteItem, h, h1]
    · simp [deleteItem, h, h2]

/-- Witness for C9 (amended) at `dbClaimed`: a stranger (user 2, student)
is denied; the poster (user 1, student) and an admin caller both delete
the claimed item. -/
theorem delete_item_permissions_witness :
    deleteItem dbClaimed 2 .student 10 = (.error .permissionDenied, dbClaimed) ∧
    deleteItem dbClaimed 1 .student 10 =
      (.ok (), { dbClaimed with items := dbClaimed.items.filter (fun it => ¬ it.id = 10) }) ∧
    deleteItem dbClaimed 2 .admin 10 =
      (.ok (), { dbClaimed with items := dbClaimed.items.filter (fun it => ¬ it.id = 10) }) :=
  ⟨(delete_item_permissions dbClaimed 2 .student 10
      ⟨10, "Wallet", 1, .claimed, some 9, none, some 5, []⟩ (by decide)).1
      (by decide) (by decide),
   (delete_item_permissions dbClaimed 1 .student 10
      ⟨10, "Wallet", 1, .claimed, some 9, none, some 5, []⟩ (by decide)).2
      (Or.inl (by decide)),
   (delete_item_permissions dbClaimed 2 .admin 10
      ⟨10, "Wallet", 1, .claimed, some 9, none, some 5, []⟩ (by decide)).2
      (Or.inr (by decide))⟩

/-- Claim C10: the admin status-override route writes only the item's
status field — poster_id, claimed_by, dates, images, title and id of
every item are unchanged (in particular setting status to claimed does
not set claimed_by), users and claims are untouched — and a notification
addressed to the poster is created exactly when the new status is
archived. -/
theorem admin_status_override_frame (db : DB) (itemId : Nat)
    (st : ItemStatus) (notes : Option String) (item : Item)
    (h : db.items.filter (fun it => it.id = itemId) = [item]) :
    (adminSetItemStatus db itemId st notes).1 = .ok { item with status := st } ∧
    (adminSetItemStatus db itemId st notes).2.items =
      db.items.map (fun it => if it.id = itemId then { it with status := st } else it) ∧
    (adminSetItemStatus db itemId st notes).2.users = db.users ∧
    (adminSetItemStatus db itemId st notes).2.claims = db.claims ∧
    (adminSetItemStatus db itemId st notes).2.items.map (fun it => it.claimed_by) =
      db.items.map (fun it => it.claimed_by) ∧
    (adminSetItemStatus db itemId st notes).2.items.map (fun it => it.poster_id) =
      db.items.map (fun it => it.poster_id) ∧
    (st = .archived →
      (adminSetItemStatus db itemId st notes).2.notifications =
        db.notifications ++ [itemArchivedNotif { item with status := st } itemId] ∧
      (itemArchivedNotif { item with status := st } itemId).user_id = item.poster_id) ∧
    (st ≠ .archived →
      (adminSetItemStatus db itemId st notes).2.notifications = db.notifications) := by
  have hid : item.id = itemId := by
    have hmem : item ∈ db.items.filter (fun it => it.id = itemId) := by
      rw [h]; exact List.mem_singleton.mpr rfl
    exact of_decide_eq_true (List.mem_filter.mp hmem).2
  have hfil2 : (db.items.map (fun it =>
        if it.id = itemId then { it with status := st } else it)).filter
      (fun it => it.id = itemId) = [{ item with status := st }] := by
    rw [filter_map_of_pres
      (fun it => if it.id = itemId then { it with status := st } else it)
      (fun it => decide (it.id = itemId)) db.items
      (by intro x; by_cases hx : x.id = itemId <;> simp [hx])]
    rw [h]
    simp [hid]
  have hcb : (db.items.map (fun it =>
        if it.id = itemId then { it with status := st } else it)).map
      (fun it => it.claimed_by) = db.items.map (fun it => it.claimed_by) :=
    map_map_of_pres _ _ _ (by intro x; by_cases hx : x.id = itemId <;> simp [hx])
  have hpo : (db.items.map (fun it =>
        if it.id = itemId then { it with status := st } else it)).map
      (fun it => it.poster_id) = db.items.map (fun it => it.poster_id) :=
    map_map_of_pres _ _ _ (by intro x; by_cases hx : x.id = itemId <;> simp [hx])
  by_cases ha : st = .archived
  · subst ha
    simp [adminSetItemStatus, hfil2, single?, hcb, hpo, itemArchivedNotif]
  · simp [adminSetItemStatus, hfil2, single?, ha, hcb, hpo]

/-- Witness for C10 at `dbA`: overriding item 10 to claimed leaves
claimed_by unset and adds no notification; overriding it to archived
changes only the status and adds one notification to poster 1. -/
theorem admin_status_override_frame_witness :
    (adminSetItemStatus dbA 10 .claimed none).2.items =
      [⟨10, "Wallet", 1, .claimed, none, none, some 5, []⟩] ∧
    (adminSetItemStatus dbA 10 .claimed none).2.notifications = [] ∧
    (adminSetItemStatus dbA 10 .archived none).2.notifications.map
      (fun n => n.user_id) = [1] := by
  have h1 := admin_status_override_frame dbA 10 .claimed none
    ⟨10, "Wallet", 1, .active, none, none, some 5, []⟩ (by decide)
  have h2 := admin_status_override_frame dbA 10 .archived none
    ⟨10, "Wallet", 1, .active, none, none, some 5, []⟩ (by decide)
  refine ⟨?_, ?_, ?_⟩
  · rw [h1.2.1]; decide
  · rw [h1.2.2.2.2.2.2.2 (by decide)]; decide
  · rw [(h2.2.2.2.2.2.2.1 (by decide)).1]; decide

end ClaimIT
